import Mathlib

/-
Verification of the session-management service in `src/main.py`.

The service stores one Redis hash per session at key `session:<id>`, with a
key-level TTL, and exposes FastAPI endpoints over that state.  We embed the
store as an association list from string keys to hash records (field list plus
optional TTL in seconds; `none` means no expiry), and each endpoint handler as
a function from the store and the request inputs to the new store and an HTTP
response.  Expiry of a key is modelled as its absence from the store (as in
Redis, an expired key is indistinguishable from a missing one); the TTL value
is tracked so that the sliding-expiration claims can be stated.
-/

namespace RedisSession

/-- A Redis hash record: field/value pairs plus the key-level TTL in seconds
(`none` means the key has no expiry set). -/
structure RHash where
  fields : List (String × String)
  ttl : Option Nat
deriving Repr, DecidableEq

/-- The Redis store visible to the service: an association list from keys to
hash records.  Keys are unique in any state Redis can be in, but none of the
operations below depend on that. -/
abbrev Store := List (String × RHash)

/-- First binding of key `k`, if any. -/
def lookupKey : Store → String → Option RHash
  | [], _ => none
  | (k', h) :: rest, k => if k' = k then some h else lookupKey rest k

/-- Replace the binding of `k` (first occurrence), or append a fresh one. -/
def setKey : Store → String → RHash → Store
  | [], k, h => [(k, h)]
  | (k', h') :: rest, k, h =>
    if k' = k then (k, h) :: rest else (k', h') :: setKey rest k h

/-- Redis `DEL key`: remove every binding of `k`. -/
def delKey : Store → String → Store
  | [], _ => []
  | (k', h') :: rest, k =>
    if k' = k then delKey rest k else (k', h') :: delKey rest k

/-- First binding of field `f` in a hash's field list, if any. -/
def getField : List (String × String) → String → Option String
  | [], _ => none
  | (f', v) :: rest, f => if f' = f then some v else getField rest f

/-- Overwrite field `f` with `v` (first occurrence), or append it. -/
def setField : List (String × String) → String → String → List (String × String)
  | [], f, v => [(f, v)]
  | (f', v') :: rest, f, v =>
    if f' = f then (f, v) :: rest else (f', v') :: setField rest f v

/-- Redis `HSET key mapping` (as in `r.hset(..., mapping=...)`): merge the
given fields into the hash, creating the key (with no TTL) if absent.  The
existing TTL of the key is untouched. -/
def hsetMapping (s : Store) (k : String) (m : List (String × String)) : Store :=
  let h := (lookupKey s k).getD ⟨[], none⟩
  setKey s k ⟨m.foldl (fun fs p => setField fs p.1 p.2) h.fields, h.ttl⟩

/-- Redis `HSET key field value`: merge a single field, creating the key (with
no TTL) if absent. -/
def hset1 (s : Store) (k f v : String) : Store :=
  let h := (lookupKey s k).getD ⟨[], none⟩
  setKey s k ⟨setField h.fields f v, h.ttl⟩

/-- Redis `HGETALL key`: all fields of the hash, or the empty mapping when the
key is absent (or expired). -/
def hgetall (s : Store) (k : String) : List (String × String) :=
  match lookupKey s k with
  | none => []
  | some h => h.fields

/-- Redis `EXPIRE key t`: set the TTL of an existing key; a no-op on a missing
key (Redis returns 0 there, which the service ignores). -/
def expire (s : Store) (k : String) (t : Nat) : Store :=
  match lookupKey s k with
  | none => s
  | some h => setKey s k ⟨h.fields, some t⟩

/-- Redis `EXISTS key`. -/
def existsKey (s : Store) (k : String) : Bool :=
  (lookupKey s k).isSome

/-- The TTL recorded for key `k`: `none` when the key is absent,
`some t` when present with TTL state `t`. -/
def ttlOf (s : Store) (k : String) : Option (Option Nat) :=
  (lookupKey s k).map RHash.ttl

/-- Cookie mutation carried by a response: `set` from `response.set_cookie`
(value and max-age), `clear` from `response.delete_cookie`. -/
inductive CookieAction
  | set (value : String) (maxAge : Nat)
  | clear
deriving Repr, DecidableEq

/-- JSON response bodies of the endpoints in `src/main.py`. -/
inductive Body
  | loginBody (message sessionId user : String)
  | profileBody (sessionId : String) (sessionData : List (String × String))
  | messageBody (m : String)
  | sessionsBody (m : List (String × List (String × String)))
  | detail (d : String)
deriving Repr, DecidableEq

/-- An HTTP response: status code, cookie mutation (if any), body. -/
structure HResp where
  status : Nat
  cookieAction : Option CookieAction
  body : Body
deriving Repr, DecidableEq

/-- Python truthiness of the `Optional[str]` cookie parameter, as tested by
`if not session_id:` — `None` and the empty string are both falsy. -/
def cookieGiven : Option String → Bool
  | none => false
  | some s => !(s == "")

/-- The store key for a session id. -/
def sessionKey (sid : String) : String := "session:" ++ sid

/-- `SESSION_TIMEOUT_SECONDS` in `src/main.py`. -/
def SESSION_TIMEOUT_SECONDS : Nat := 100

/-- `POST /login`: `login` in `src/main.py`.  The freshly drawn session id is a
parameter (`str(uuid.uuid4())` is random; its value space is modelled by
`uuid4_int` below). -/
def login (store : Store) (username : String) (sessionId : String) :
    Store × HResp :=
  let key := sessionKey sessionId
  let s1 := hsetMapping store key [("user", username), ("status", "active")]
  let s2 := expire s1 key SESSION_TIMEOUT_SECONDS
  (s2, ⟨200, some (.set sessionId SESSION_TIMEOUT_SECONDS),
        .loginBody "Logged in successfully" sessionId username⟩)

/-- `GET /profile`: `get_profile` in `src/main.py`. -/
def get_profile (store : Store) (cookie : Option String) : Store × HResp :=
  if cookieGiven cookie then
    let sid := cookie.getD ""
    let data := hgetall store (sessionKey sid)
    if data.isEmpty then
      (store, ⟨404, none, .detail "Session expired or not found"⟩)
    else
      (expire store (sessionKey sid) SESSION_TIMEOUT_SECONDS,
       ⟨200, none, .profileBody sid data⟩)
  else
    (store, ⟨403, none, .detail "No session cookie found"⟩)

/-- `POST /logout`: `logout` in `src/main.py`. -/
def logout (store : Store) (cookie : Option String) : Store × HResp :=
  let s1 :=
    if cookieGiven cookie then delKey store (sessionKey (cookie.getD ""))
    else store
  (s1, ⟨200, some .clear, .messageBody "Logged out successfully"⟩)

/-- `POST /set-session-data`: `set_session_data` in `src/main.py`. -/
def set_session_data (store : Store) (k v : String) (cookie : Option String) :
    Store × HResp :=
  if cookieGiven cookie then
    let sid := cookie.getD ""
    if existsKey store (sessionKey sid) then
      let s1 := hset1 store (sessionKey sid) k v
      let s2 := expire s1 (sessionKey sid) SESSION_TIMEOUT_SECONDS
      (s2, ⟨200, none, .messageBody ("Set " ++ k ++ " = " ++ v ++ " in session")⟩)
    else
      (store, ⟨404, none, .detail "Session not found"⟩)
  else
    (store, ⟨403, none, .detail "No session cookie found"⟩)

/-- Whether the first char list leads the second (is an initial segment). -/
def charsLeading : List Char → List Char → Bool
  | [], _ => true
  | _ :: _, [] => false
  | a :: as, b :: bs => a == b && charsLeading as bs

/-- Whether string `p` is an initial segment of string `s`. -/
def strLeading (p s : String) : Bool := charsLeading p.data s.data

/-- `GET /admin/sessions`: `get_all_sessions` in `src/main.py`.  `scan_iter`
with pattern `session:*` yields the store keys whose initial segment is
`session:`; the handler maps each such key — the full key, the `session:`
part included — to its `hgetall`. -/
def get_all_sessions (store : Store) : Store × HResp :=
  let keys := (store.map Prod.fst).filter (fun k => strLeading "session:" k)
  (store, ⟨200, none, .sessionsBody (keys.map (fun k => (k, hgetall store k)))⟩)

/-- The mapping carried by a `sessionsBody` response. -/
def sessionsOf : Body → List (String × List (String × String))
  | .sessionsBody m => m
  | _ => []

/-- The session data carried by a `profileBody` response. -/
def profileData : Body → Option (List (String × String))
  | .profileBody _ d => some d
  | _ => none

/-- CPython `uuid.uuid4()` as the function from the 16 random bytes drawn
(read as a 128-bit integer) to the integer value of the resulting UUID: the
version nibble (bits 76–79) is forced to 4 and the variant bits (62–63) to
binary 10; the remaining 122 bits pass through.  Written with division and
remainder in place of the source's bit masks. -/
def uuid4_int (r : Nat) : Nat :=
  r % 2 ^ 128 / 2 ^ 80 * 2 ^ 80 + 4 * 2 ^ 76 +
    r % 2 ^ 128 / 2 ^ 64 % 2 ^ 12 * 2 ^ 64 + 2 * 2 ^ 62 + r % 2 ^ 128 % 2 ^ 62

/-- Decimal value of a digit string, accumulated left to right; `none` on the
first non-digit character. -/
def digitsVal (acc : Nat) : List Char → Option Nat
  | [] => some acc
  | c :: cs =>
    if c.isDigit then digitsVal (acc * 10 + (c.toNat - 48)) cs else none

/-- Python `int(str)` on the shapes relevant here: an optional sign followed
by at least one decimal digit; anything else raises `ValueError`, modelled as
`none` (`int(None)` raises `TypeError`, handled at the call site). -/
def pyInt (s : String) : Option Int :=
  match s.data with
  | [] => none
  | '-' :: cs =>
    if cs.isEmpty then none else (digitsVal 0 cs).map (fun n => -(n : Int))
  | '+' :: cs =>
    if cs.isEmpty then none else (digitsVal 0 cs).map (fun n => (n : Int))
  | cs => (digitsVal 0 cs).map (fun n => (n : Int))

/-- Outcome of the module-level initialization (lines 18–50 of
`src/main.py`). -/
inductive InitOutcome
  | fatalUncaught
  | fatalExit1
  | started (host : Option String) (port : Int)
deriving Repr, DecidableEq

/-- The module-level initialization of `src/main.py`.  `REDIS_HOST` is read
without any check; `int(os.getenv("REDIS_PORT"))` runs before the
`try` block, so a missing or non-numeric port raises an uncaught
`TypeError`/`ValueError` and the import dies.  The connection pool is then
built (with whatever host value was read, possibly `None`) and `ping()` is
attempted; an authentication or connection failure there is caught and turned
into `sys.exit(1)`.  Whether the ping succeeds is environmental and is the
parameter `connectOk`. -/
def moduleInit (env : String → Option String) (connectOk : Bool) : InitOutcome :=
  match env "REDIS_PORT" with
  | none => .fatalUncaught
  | some p =>
    match pyInt p with
    | none => .fatalUncaught
    | some port =>
      if connectOk then .started (env "REDIS_HOST") port else .fatalExit1

/-- Whether the process reaches the point of serving requests. -/
def serves : InitOutcome → Bool
  | .started _ _ => true
  | _ => false

/-! ### Basic lemmas about the store operations -/

theorem lookupKey_setKey_self (s : Store) (k : String) (h : RHash) :
    lookupKey (setKey s k h) k = some h := by
  induction s with
  | nil => simp [setKey, lookupKey]
  | cons p rest ih =>
    obtain ⟨k', h'⟩ := p
    by_cases hk : k' = k <;> simp [setKey, lookupKey, hk, ih]

theorem lookupKey_setKey_ne (s : Store) (k : String) (h : RHash) (k' : String)
    (hne : k' ≠ k) : lookupKey (setKey s k h) k' = lookupKey s k' := by
  induction s with
  | nil => simp [setKey, lookupKey, Ne.symm hne]
  | cons p rest ih =>
    obtain ⟨a, b⟩ := p
    by_cases ha : a = k
    · subst ha
      simp [setKey, lookupKey, hne, Ne.symm hne]
    · by_cases ha' : a = k'
      · subst ha'
        simp [setKey, lookupKey, ha, hne]
      · simp [setKey, lookupKey, ha, ha', ih]

theorem getField_setField_self (fs : List (String × String)) (f v : String) :
    getField (setField fs f v) f = some v := by
  induction fs with
  | nil => simp [setField, getField]
  | cons p rest ih =>
    obtain ⟨a, b⟩ := p
    by_cases ha : a = f <;> simp [setField, getField, ha, ih]

theorem getField_setField_ne (fs : List (String × String)) (f v f' : String)
    (hne : f' ≠ f) : getField (setField fs f v) f' = getField fs f' := by
  induction fs with
  | nil => simp [setField, getField, Ne.symm hne]
  | cons p rest ih =>
    obtain ⟨a, b⟩ := p
    by_cases ha : a = f
    · subst ha
      simp [setField, getField, hne, Ne.symm hne]
    · by_cases ha' : a = f'
      · subst ha'
        simp [setField, getField, ha, hne]
      · simp [setField, getField, ha, ha', ih]

theorem setField_ne_nil (fs : List (String × String)) (f v : String) :
    setField fs f v ≠ [] := by
  cases fs with
  | nil => simp [setField]
  | cons p rest =>
    obtain ⟨a, b⟩ := p
    by_cases ha : a = f <;> simp [setField, ha]

theorem lookupKey_delKey_self (s : Store) (k : String) :
    lookupKey (delKey s k) k = none := by
  induction s with
  | nil => simp [delKey, lookupKey]
  | cons p rest ih =>
    obtain ⟨a, b⟩ := p
    by_cases ha : a = k <;> simp [delKey, lookupKey, ha, ih]

theorem delKey_of_absent (s : Store) (k : String)
    (h : lookupKey s k = none) : delKey s k = s := by
  induction s with
  | nil => simp [delKey]
  | cons p rest ih =>
    obtain ⟨a, b⟩ := p
    by_cases ha : a = k
    · simp [lookupKey, ha] at h
    · simp [lookupKey, ha] at h
      simp [delKey, ha, ih h]

theorem expire_of_absent (s : Store) (k : String) (t : Nat)
    (h : lookupKey s k = none) : expire s k t = s := by
  simp [expire, h]

theorem lookupKey_expire_self (s : Store) (k : String) (t : Nat) (h : RHash)
    (hl : lookupKey s k = some h) :
    lookupKey (expire s k t) k = some ⟨h.fields, some t⟩ := by
  simp [expire, hl, lookupKey_setKey_self]

theorem lookupKey_hset1_self (s : Store) (k f v : String) (h : RHash)
    (hl : lookupKey s k = some h) :
    lookupKey (hset1 s k f v) k = some ⟨setField h.fields f v, h.ttl⟩ := by
  simp [hset1, hl, lookupKey_setKey_self]

theorem hgetall_of_lookup (s : Store) (k : String) (h : RHash)
    (hl : lookupKey s k = some h) : hgetall s k = h.fields := by
  simp [hgetall, hl]

theorem cookieGiven_some (sid : String) (hsid : sid ≠ "") :
    cookieGiven (some sid) = true := by
  simp [cookieGiven, hsid]

/-! ### Claim theorems -/

/-- C1: for every existing session, a successful `GET /profile` and a
successful `POST /set-session-data` each reset the session key's store TTL to
the full 100-second window, whatever TTL state it had before — so a session
that keeps being accessed has no fixed upper lifetime. -/
theorem c1_sliding_ttl (store : Store) (sid k v : String) (h : RHash)
    (hsid : sid ≠ "") (hl : lookupKey store (sessionKey sid) = some h)
    (hne : h.fields ≠ []) :
    ((get_profile store (some sid)).2.status = 200 ∧
      ttlOf (get_profile store (some sid)).1 (sessionKey sid) = some (some 100)) ∧
    ((set_session_data store k v (some sid)).2.status = 200 ∧
      ttlOf (set_session_data store k v (some sid)).1 (sessionKey sid) =
        some (some 100)) := by
  have hc := cookieGiven_some sid hsid
  have hget : hgetall store (sessionKey sid) = h.fields := hgetall_of_lookup _ _ _ hl
  constructor
  · have hemp : (hgetall store (sessionKey sid)).isEmpty = false := by
      rw [hget]
      exact List.isEmpty_eq_false_iff_exists_mem.mpr
        (by cases hf : h.fields with
            | nil => exact absurd hf hne
            | cons a t => exact ⟨a, by simp [hf]⟩)
    constructor
    · simp [get_profile, hc, hemp]
    · simp only [get_profile, hc, if_true, Option.getD_some, hemp,
        Bool.false_eq_true, if_false]
      simp [ttlOf, lookupKey_expire_self store (sessionKey sid) _ h hl,
        SESSION_TIMEOUT_SECONDS]
  · have hex : existsKey store (sessionKey sid) = true := by
      simp [existsKey, hl]
    have h1 := lookupKey_hset1_self store (sessionKey sid) k v h hl
    constructor
    · simp [set_session_data, hc, hex]
    · simp only [set_session_data, hc, if_true, Option.getD_some, hex]
      simp [ttlOf, lookupKey_expire_self _ (sessionKey sid) _ _ h1,
        SESSION_TIMEOUT_SECONDS]

/-- C1 witness at a concrete store. -/
theorem c1_sliding_ttl_witness :
    ((get_profile [("session:a", ⟨[("user", "u")], some 7⟩)] (some "a")).2.status
        = 200 ∧
      ttlOf (get_profile [("session:a", ⟨[("user", "u")], some 7⟩)]
          (some "a")).1 (sessionKey "a") = some (some 100)) ∧
    ((set_session_data [("session:a", ⟨[("user", "u")], some 7⟩)] "k" "v"
          (some "a")).2.status = 200 ∧
      ttlOf (set_session_data [("session:a", ⟨[("user", "u")], some 7⟩)] "k" "v"
          (some "a")).1 (sessionKey "a") = some (some 100)) :=
  c1_sliding_ttl [("session:a", ⟨[("user", "u")], some 7⟩)] "a" "k" "v"
    ⟨[("user", "u")], some 7⟩ (by decide) (by decide) (by decide)

/-- C2: creating a session via `POST /login` and immediately reading it back
with the issued id via `GET /profile` succeeds and returns session data whose
`user` field is the username supplied at creation and whose `status` field is
`"active"`. -/
theorem c2_create_then_read (store : Store) (username sid : String)
    (hsid : sid ≠ "") :
    (get_profile (login store username sid).1 (some sid)).2.status = 200 ∧
    ∃ data, (get_profile (login store username sid).1 (some sid)).2.body =
        Body.profileBody sid data ∧
      getField data "user" = some username ∧
      getField data "status" = some "active" := by
  have hc := cookieGiven_some sid hsid
  set key := sessionKey sid with hkey
  set old : RHash := (lookupKey store key).getD ⟨[], none⟩ with hold
  set fs : List (String × String) :=
    setField (setField old.fields "user" username) "status" "active" with hfs
  have hm : lookupKey
      (hsetMapping store key [("user", username), ("status", "active")]) key =
      some ⟨fs, old.ttl⟩ := by
    simp only [hsetMapping, List.foldl]
    exact lookupKey_setKey_self _ _ _
  have hs1 : (login store username sid).1 =
      expire (hsetMapping store key [("user", username), ("status", "active")])
        key SESSION_TIMEOUT_SECONDS := rfl
  have hl1 : lookupKey (login store username sid).1 key =
      some ⟨fs, some SESSION_TIMEOUT_SECONDS⟩ := by
    rw [hs1]
    exact lookupKey_expire_self _ _ _ _ hm
  have hget : hgetall (login store username sid).1 key = fs :=
    hgetall_of_lookup _ _ _ hl1
  have hfsne : fs ≠ [] := setField_ne_nil _ _ _
  have hemp : (hgetall (login store username sid).1 key).isEmpty = false := by
    rw [hget]
    cases hcase : fs with
    | nil => exact absurd hcase hfsne
    | cons a t => simp
  constructor
  · simp [get_profile, hc, ← hkey, hemp]
  · refine ⟨fs, ?_, ?_, ?_⟩
    · simp [get_profile, hc, ← hkey, hemp, hget, hfsne]
    · rw [hfs, getField_setField_ne _ _ _ _ (by decide),
        getField_setField_self]
    · rw [hfs, getField_setField_self]

/-- C2 witness at a concrete store and username. -/
theorem c2_create_then_read_witness :
    (get_profile (login [] "alice" "abc").1 (some "abc")).2.status = 200 ∧
    ∃ data, (get_profile (login [] "alice" "abc").1 (some "abc")).2.body =
        Body.profileBody "abc" data ∧
      getField data "user" = some "alice" ∧
      getField data "status" = some "active" :=
  c2_create_then_read [] "alice" "abc" (by decide)

/-- C3: `POST /set-session-data` on an existing session merges exactly the one
given field — that field now reads back as the given value, every other field
of the session is unchanged, every other store key is unchanged — and resets
the TTL to 100; on a non-existent session it answers 404 and leaves the store
untouched. -/
theorem c3_merge_not_replace (store : Store) (sid k v : String)
    (hsid : sid ≠ "") :
    (∀ h : RHash, lookupKey store (sessionKey sid) = some h →
      (set_session_data store k v (some sid)).2.status = 200 ∧
      lookupKey (set_session_data store k v (some sid)).1 (sessionKey sid) =
        some ⟨setField h.fields k v, some 100⟩ ∧
      getField (setField h.fields k v) k = some v ∧
      (∀ f : String, f ≠ k →
        getField (setField h.fields k v) f = getField h.fields f) ∧
      (∀ key : String, key ≠ sessionKey sid →
        lookupKey (set_session_data store k v (some sid)).1 key =
          lookupKey store key)) ∧
    (lookupKey store (sessionKey sid) = none →
      (set_session_data store k v (some sid)).2.status = 404 ∧
      (set_session_data store k v (some sid)).1 = store) := by
  have hc := cookieGiven_some sid hsid
  constructor
  · intro h hl
    have hex : existsKey store (sessionKey sid) = true := by
      simp [existsKey, hl]
    have h1 := lookupKey_hset1_self store (sessionKey sid) k v h hl
    have hst : (set_session_data store k v (some sid)).1 =
        expire (hset1 store (sessionKey sid) k v) (sessionKey sid)
          SESSION_TIMEOUT_SECONDS := by
      simp [set_session_data, hc, hex]
    refine ⟨by simp [set_session_data, hc, hex], ?_, getField_setField_self _ _ _,
      fun f hf => getField_setField_ne _ _ _ _ hf, ?_⟩
    · rw [hst]
      exact lookupKey_expire_self _ _ _ _ h1
    · intro key hkey
      rw [hst]
      have hhs : hset1 store (sessionKey sid) k v =
          setKey store (sessionKey sid) ⟨setField h.fields k v, h.ttl⟩ := by
        simp [hset1, hl]
      rw [expire, h1, hhs, lookupKey_setKey_ne _ _ _ _ hkey,
        lookupKey_setKey_ne _ _ _ _ hkey]
  · intro hl
    have hex : existsKey store (sessionKey sid) = false := by
      simp [existsKey, hl]
    exact ⟨by simp [set_session_data, hc, hex], by simp [set_session_data, hc, hex]⟩

/-- C3 witness at a concrete store holding two fields and a second key. -/
theorem c3_merge_not_replace_witness :
    ((set_session_data
        [("session:a", ⟨[("user", "u"), ("c", "1")], some 7⟩), ("other", ⟨[], none⟩)]
        "c" "2" (some "a")).2.status = 200 ∧
      lookupKey (set_session_data
        [("session:a", ⟨[("user", "u"), ("c", "1")], some 7⟩), ("other", ⟨[], none⟩)]
        "c" "2" (some "a")).1 (sessionKey "a") =
        some ⟨setField [("user", "u"), ("c", "1")] "c" "2", some 100⟩ ∧
      getField (setField [("user", "u"), ("c", "1")] "c" "2") "c" = some "2" ∧
      getField (setField [("user", "u"), ("c", "1")] "c" "2") "user" = some "u" ∧
      lookupKey (set_session_data
        [("session:a", ⟨[("user", "u"), ("c", "1")], some 7⟩), ("other", ⟨[], none⟩)]
        "c" "2" (some "a")).1 "other" = some ⟨[], none⟩) ∧
    ((set_session_data [] "c" "2" (some "a")).2.status = 404 ∧
      (set_session_data [] "c" "2" (some "a")).1 = []) := by
  have h1 := (c3_merge_not_replace
    [("session:a", ⟨[("user", "u"), ("c", "1")], some 7⟩), ("other", ⟨[], none⟩)]
    "a" "c" "2" (by decide)).1 ⟨[("user", "u"), ("c", "1")], some 7⟩ (by decide)
  have h2 := (c3_merge_not_replace [] "a" "c" "2" (by decide)).2 (by decide)
  refine ⟨⟨h1.1, h1.2.1, h1.2.2.1, ?_, ?_⟩, h2⟩
  · rw [h1.2.2.2.1 "user" (by decide)]
    decide
  · rw [h1.2.2.2.2 "other" (by decide)]
    decide

/-- C4: on `GET /profile` and `POST /set-session-data`, a missing (or empty)
cookie yields status 403 and a present cookie whose session key is absent or
expired in the store yields status 404; in both cases the store is returned
unmodified. -/
theorem c4_missing_cookie_and_session (store : Store) (k v : String)
    (cookie : Option String) :
    (cookieGiven cookie = false →
      get_profile store cookie =
        (store, ⟨403, none, .detail "No session cookie found"⟩) ∧
      set_session_data store k v cookie =
        (store, ⟨403, none, .detail "No session cookie found"⟩)) ∧
    (∀ sid : String, cookie = some sid → sid ≠ "" →
      lookupKey store (sessionKey sid) = none →
      get_profile store cookie =
        (store, ⟨404, none, .detail "Session expired or not found"⟩) ∧
      set_session_data store k v cookie =
        (store, ⟨404, none, .detail "Session not found"⟩)) := by
  constructor
  · intro hc
    exact ⟨by simp [get_profile, hc], by simp [set_session_data, hc]⟩
  · intro sid hcookie hsid hl
    subst hcookie
    have hc := cookieGiven_some sid hsid
    have hget : hgetall store (sessionKey sid) = [] := by
      simp [hgetall, hl]
    have hex : existsKey store (sessionKey sid) = false := by
      simp [existsKey, hl]
    exact ⟨by simp [get_profile, hc, hget], by simp [set_session_data, hc, hex]⟩

/-- C4 witness at the empty store, with a missing cookie and with a cookie
pointing at an absent session. -/
theorem c4_missing_cookie_and_session_witness :
    (get_profile [] none =
        ([], ⟨403, none, .detail "No session cookie found"⟩) ∧
      set_session_data [] "k" "v" none =
        ([], ⟨403, none, .detail "No session cookie found"⟩)) ∧
    (get_profile [] (some "a") =
        ([], ⟨404, none, .detail "Session expired or not found"⟩) ∧
      set_session_data [] "k" "v" (some "a") =
        ([], ⟨404, none, .detail "Session not found"⟩)) :=
  ⟨(c4_missing_cookie_and_session [] "k" "v" none).1 (by decide),
   (c4_missing_cookie_and_session [] "k" "v" (some "a")).2 "a" rfl (by decide)
     (by decide)⟩

/-- C5: `POST /logout` answers status 200 and clears the session cookie for
every prior state; with a (non-empty) cookie it deletes the session key
unconditionally, and when the key does not exist the deletion is a no-op
rather than an error (logout is idempotent). -/
theorem c5_logout_idempotent (store : Store) (cookie : Option String) :
    (logout store cookie).2.status = 200 ∧
    (logout store cookie).2.cookieAction = some CookieAction.clear ∧
    (∀ sid : String, cookie = some sid → sid ≠ "" →
      (logout store cookie).1 = delKey store (sessionKey sid) ∧
      lookupKey (logout store cookie).1 (sessionKey sid) = none) ∧
    (∀ sid : String, cookie = some sid → sid ≠ "" →
      lookupKey store (sessionKey sid) = none →
      (logout store cookie).1 = store) := by
  refine ⟨rfl, rfl, ?_, ?_⟩
  · intro sid hcookie hsid
    subst hcookie
    have hc := cookieGiven_some sid hsid
    have hst : (logout store (some sid)).1 = delKey store (sessionKey sid) := by
      simp [logout, hc]
    exact ⟨hst, by rw [hst]; exact lookupKey_delKey_self _ _⟩
  · intro sid hcookie hsid hl
    subst hcookie
    have hc := cookieGiven_some sid hsid
    simp [logout, hc, delKey_of_absent _ _ hl]

/-- C5 witness: logout with a cookie for an existing session, and logout with
a cookie for an absent session. -/
theorem c5_logout_idempotent_witness :
    ((logout [("session:a", ⟨[("user", "u")], some 7⟩)] (some "a")).2.status
        = 200 ∧
      (logout [("session:a", ⟨[("user", "u")], some 7⟩)]
          (some "a")).2.cookieAction = some CookieAction.clear ∧
      lookupKey (logout [("session:a", ⟨[("user", "u")], some 7⟩)]
          (some "a")).1 (sessionKey "a") = none) ∧
    (logout [] (some "a")).1 = [] := by
  have h1 := c5_logout_idempotent [("session:a", ⟨[("user", "u")], some 7⟩)]
    (some "a")
  have h2 := c5_logout_idempotent [] (some "a")
  exact ⟨⟨h1.1, h1.2.1, (h1.2.2.1 "a" rfl (by decide)).2⟩,
    h2.2.2.2 "a" rfl (by decide) (by decide)⟩

/-- C9: only `POST /login` sets the session cookie — its response carries a
set-cookie with the fresh id and max-age 100 — while `GET /profile` performs
no cookie mutation at all, on any store and any cookie, so the client-side
cookie lifetime stays fixed from login even though the server-side TTL
slides. -/
theorem c9_only_login_sets_cookie (store : Store) (username sid : String)
    (cookie : Option String) :
    (login store username sid).2.cookieAction =
      some (CookieAction.set sid 100) ∧
    (get_profile store cookie).2.cookieAction = none := by
  refine ⟨rfl, ?_⟩
  by_cases hc : cookieGiven cookie
  · by_cases h2 : (hgetall store (sessionKey (cookie.getD ""))).isEmpty
    · simp [get_profile, hc, h2]
    · simp [get_profile, hc, h2]
  · simp [get_profile, hc]

/-- C10: a logout with no session cookie performs no store operation at all —
the store after equals the store before — and still answers status 200 with
the cookie cleared. -/
theorem c10_logout_without_cookie (store : Store) :
    logout store none =
      (store,
       ⟨200, some CookieAction.clear, .messageBody "Logged out successfully"⟩) :=
  rfl

/-- C6 counterexample: the id space is not all of `2 ^ 128`.  The value `0`
(one of the `2 ^ 128` values the claim says can be issued: its version nibble
is 0) is never the integer value of `str(uuid.uuid4())`, whatever random bytes
are drawn. -/
theorem c6_counterexample : ¬ ∃ r : Nat, uuid4_int r = 0 := by
  rintro ⟨r, h⟩
  simp only [uuid4_int] at h
  omega

/-- C6 amended: the values `uuid.uuid4()` can produce are exactly the 128-bit
integers whose version nibble (bits 76–79) is 4 and whose variant bits
(62–63) are binary 10 — a space of `2 ^ 122` equally likely values, not
`2 ^ 128`. -/
theorem c6_uuid4_value_space (v : Nat) :
    (∃ r : Nat, uuid4_int r = v) ↔
      v < 2 ^ 128 ∧ v / 2 ^ 76 % 16 = 4 ∧ v / 2 ^ 62 % 4 = 2 := by
  constructor
  · rintro ⟨r, rfl⟩
    simp only [uuid4_int]
    refine ⟨?_, ?_, ?_⟩ <;> omega
  · rintro ⟨h1, h2, h3⟩
    refine ⟨v, ?_⟩
    simp only [uuid4_int]
    omega

/-- A store with one session whose id is `abc`. -/
def storeOneSession : Store :=
  [("session:abc", ⟨[("user", "alice"), ("status", "active")], some 100⟩)]

/-- C7 counterexample: on a store holding exactly the session with id `abc`,
`GET /admin/sessions` returns a mapping keyed by the full store key
`session:abc` — the prefix is not stripped — so its key list is not the
session-identifier list `["abc"]`. -/
theorem c7_counterexample :
    sessionsOf (get_all_sessions storeOneSession).2.body =
      [("session:abc", [("user", "alice"), ("status", "active")])] ∧
    (sessionsOf (get_all_sessions storeOneSession).2.body).map Prod.fst ≠
      ["abc"] := by
  constructor <;> decide

/-- C7 amended: the mapping returned by `GET /admin/sessions` has one entry
per store key that carries the `session:` prefix at scan time — keyed by the
full store key, prefix included, not by the bare session id — whose value is
that key's field mapping. -/
theorem c7_list_all_sessions (store : Store) (k : String)
    (d : List (String × String)) :
    (k, d) ∈ sessionsOf (get_all_sessions store).2.body ↔
      (k ∈ store.map Prod.fst ∧ strLeading "session:" k = true ∧
        d = hgetall store k) := by
  simp only [get_all_sessions, sessionsOf, List.mem_map, List.mem_filter,
    Prod.mk.injEq]
  constructor
  · rintro ⟨a, ⟨ha, hp⟩, rfl, rfl⟩
    exact ⟨ha, hp, rfl⟩
  · rintro ⟨ha, hp, rfl⟩
    exact ⟨k, ⟨ha, hp⟩, rfl, rfl⟩

/-- An environment providing only `REDIS_PORT`. -/
def envPortOnly : String → Option String :=
  fun k => if k = "REDIS_PORT" then some "6379" else none

/-- An environment providing nothing. -/
def envEmpty : String → Option String := fun _ => none

/-- An environment whose `REDIS_PORT` does not parse as an integer. -/
def envBadPort : String → Option String :=
  fun k => if k = "REDIS_PORT" then some "oops" else none

/-- C8 counterexample: with `REDIS_HOST` absent from the environment but
`REDIS_PORT` set and the startup ping succeeding (the client library falls
back to a default host), the module initialization completes and the process
serves — absence of the host variable alone is not startup-fatal. -/
theorem c8_counterexample :
    envPortOnly "REDIS_HOST" = none ∧
    moduleInit envPortOnly true = .started none 6379 ∧
    serves (moduleInit envPortOnly true) = true := by
  refine ⟨rfl, ?_, ?_⟩ <;> decide

/-- C8 amended: a missing (or non-numeric) `REDIS_PORT` kills the import with
an uncaught error, and a failing startup connection/authentication check ends
in `sys.exit(1)`; in every non-started outcome no request is ever served, and
serving implies the startup check succeeded.  A missing `REDIS_HOST` by
itself is not fatal. -/
theorem c8_fail_fast (env : String → Option String) (connectOk : Bool) :
    (env "REDIS_PORT" = none →
      moduleInit env connectOk = .fatalUncaught ∧
      serves (moduleInit env connectOk) = false) ∧
    (∀ p : String, env "REDIS_PORT" = some p → pyInt p = none →
      moduleInit env connectOk = .fatalUncaught ∧
      serves (moduleInit env connectOk) = false) ∧
    (∀ p : String, env "REDIS_PORT" = some p → connectOk = false →
      serves (moduleInit env connectOk) = false) ∧
    (serves (moduleInit env connectOk) = true → connectOk = true) := by
  refine ⟨?_, ?_, ?_, ?_⟩
  · intro h
    simp [moduleInit, h, serves]
  · intro p hp hint
    simp [moduleInit, hp, hint, serves]
  · intro p hp hok
    subst hok
    cases hint : pyInt p <;> simp [moduleInit, hp, hint, serves]
  · intro h
    by_contra hok
    have hok' : connectOk = false := by
      cases connectOk
      · rfl
      · exact absurd rfl hok
    subst hok'
    cases henv : env "REDIS_PORT" with
    | none => simp [moduleInit, henv, serves] at h
    | some p =>
      cases hint : pyInt p <;> simp [moduleInit, henv, hint, serves] at h

/-- C8 witness: the fail-fast branches at concrete environments — no port,
a non-numeric port, and a failing startup check. -/
theorem c8_fail_fast_witness :
    (moduleInit envEmpty true = .fatalUncaught ∧
      serves (moduleInit envEmpty true) = false) ∧
    (moduleInit envBadPort true = .fatalUncaught ∧
      serves (moduleInit envBadPort true) = false) ∧
    serves (moduleInit envPortOnly false) = false :=
  ⟨(c8_fail_fast envEmpty true).1 rfl,
   (c8_fail_fast envBadPort true).2.1 "oops" (by decide) (by decide),
   (c8_fail_fast envPortOnly false).2.2.1 "6379" (by decide) rfl⟩

end RedisSession
